import Mathlib

/-!
Verification development for the to-do list client (`src/app.js`).

The script is embedded shallowly.  JavaScript values that the script inspects are
modelled by small inductive types, the page (spinner, task list, toast, theme, local
storage) by an explicit state record, and every asynchronous operation by a function
that receives the outcome of each of its network calls as an argument and returns the
page it leaves behind.
-/

namespace TodoApp

/-! ## JavaScript values -/

/-- A JavaScript Number.  A finite double is represented by the rational it denotes
(every finite double is a rational, so a statement about all `JsNumber`s covers all
doubles); `-0` and `+0` are identified, which none of the operations used by the
script can tell apart. -/
inductive JsNumber where
  | nan
  | posInf
  | negInf
  | fin (q : ℚ)
  deriving DecidableEq

/-- A primitive JavaScript value. -/
inductive JsValue where
  | undefined
  | null
  | bool (b : Bool)
  | num (n : JsNumber)
  | str (s : String)
  deriving DecidableEq

/-- The built-ins of the host whose results depend on string parsing:
`Number(s)` on a string and `Date.parse(s)`. -/
structure Host where
  /-- The value of `Number(s)` for a string `s`. -/
  toNumber : String → JsNumber
  /-- The value of `Date.parse(s)`: a time value, or `NaN` when `s` is not a date. -/
  dateParse : String → JsNumber

/-- Truthiness of a number (`ToBoolean`): `NaN` and zero are falsy. -/
def JsNumber.toBoolean : JsNumber → Bool
  | .nan => false
  | .posInf => true
  | .negInf => true
  | .fin q => decide (q ≠ 0)

/-- Truthiness of a string (`ToBoolean`): only the empty string is falsy. -/
def strToBoolean (s : String) : Bool := decide (s.data ≠ [])

/-- Truthiness of a value (`ToBoolean`). -/
def JsValue.toBoolean : JsValue → Bool
  | .undefined => false
  | .null => false
  | .bool b => b
  | .num n => n.toBoolean
  | .str s => strToBoolean s

/-- The numeric value of a primitive (`ToNumber`). -/
def JsValue.toNumber (host : Host) : JsValue → JsNumber
  | .undefined => .nan
  | .null => .fin 0
  | .bool b => if b then .fin 1 else .fin 0
  | .num n => n
  | .str s => host.toNumber s

/-- The comparison `a < b` on numbers: false as soon as one side is `NaN`. -/
def JsNumber.lt : JsNumber → JsNumber → Bool
  | .nan, _ => false
  | _, .nan => false
  | .posInf, _ => false
  | .negInf, .negInf => false
  | .negInf, _ => true
  | .fin _, .posInf => true
  | .fin _, .negInf => false
  | .fin a, .fin b => decide (a < b)

/-- The test `isNaN(x)` on a number. -/
def JsNumber.isNaN : JsNumber → Bool
  | .nan => true
  | _ => false

/-- The test `Number.isInteger(v)`: true only for a finite number without fractional part;
false for every value that is not a number. -/
def numberIsInteger : JsValue → Bool
  | .num (.fin q) => decide (q.den = 1)
  | _ => false

/-- The characters removed by `String.prototype.trim`: the ECMAScript `WhiteSpace` and
`LineTerminator` code points. -/
def isJsWhiteSpace (c : Char) : Bool :=
  let n := c.toNat
  n == 0x09 || n == 0x0A || n == 0x0B || n == 0x0C || n == 0x0D || n == 0x20 ||
  n == 0xA0 || n == 0x1680 || (0x2000 ≤ n && n ≤ 0x200A) || n == 0x2028 || n == 0x2029 ||
  n == 0x202F || n == 0x205F || n == 0x3000 || n == 0xFEFF

/-- The method `s.trim()`: white space removed from both ends. -/
def trim (s : String) : String :=
  ⟨((s.data.dropWhile isJsWhiteSpace).reverse.dropWhile isJsWhiteSpace).reverse⟩

/-! ## Validator -/

/-- The function `validateInput(title, priority, deadline)` of `app.js`; `none` is `null`. -/
def validateInput (host : Host) (title : String) (priority : JsValue) (deadline : String) :
    Option String :=
  if !strToBoolean (trim title) then some "Title is required."
  else if !numberIsInteger priority || (priority.toNumber host).lt (.fin 1)
      || JsNumber.lt (.fin 3) (priority.toNumber host) then
    some "Priority must be 1-3."
  else if strToBoolean deadline && (host.dateParse deadline).isNaN then
    some "Deadline is invalid."
  else none

/-- A title is blank when it is empty or all of its characters are white space. -/
def isBlank (title : String) : Prop := ∀ c ∈ title.data, isJsWhiteSpace c = true

/-- A priority is valid when it is one of the numbers 1, 2, 3. -/
def isValidPriority (priority : JsValue) : Prop :=
  priority = .num (.fin 1) ∨ priority = .num (.fin 2) ∨ priority = .num (.fin 3)

instance (title : String) : Decidable (isBlank title) := by
  unfold isBlank; infer_instance

instance (p : JsValue) : Decidable (isValidPriority p) := by
  unfold isValidPriority; infer_instance

/-- A deadline parses as a date when `Date.parse` does not give `NaN` for it. -/
def parsesAsDate (host : Host) (deadline : String) : Prop :=
  (host.dateParse deadline).isNaN = false

instance (host : Host) (deadline : String) : Decidable (parsesAsDate host deadline) := by
  unfold parsesAsDate; infer_instance

/-- A host used to evaluate the script on concrete inputs: `Number` reads the one-digit
numerals and gives `NaN` otherwise, `Date.parse` accepts exactly `1970-01-01`. -/
def sampleHost : Host where
  toNumber := fun s =>
    if s = "0" then .fin 0 else if s = "1" then .fin 1 else if s = "2" then .fin 2
    else if s = "3" then .fin 3 else if s = "4" then .fin 4 else if s = "5" then .fin 5
    else .nan
  dateParse := fun s => if s = "1970-01-01" then .fin 0 else .nan

/-! ## Tasks and the page -/

/-- The largest safe integer, `Number.MAX_SAFE_INTEGER`, which is `2^53 - 1`. -/
def maxSafeInteger : Int := 9007199254740991

/-- A Number that is a safe integer: an integer between `-(2^53 - 1)` and `2^53 - 1`.
Every such integer is a double, and a template literal prints it as its decimal digits;
beyond this range a Number prints rounded digits and, from `10^21` on, an exponent. -/
abbrev SafeInteger : Type := { n : Int // -maxSafeInteger ≤ n ∧ n ≤ maxSafeInteger }

/-- A task record as the list endpoint returns it (the fields the script reads):
`id` is any primitive, `title` a string, `priority` a safe integer (the data model has
1, 2, 3), `deadline` a string or `null` (`none`), `completed` a boolean. -/
structure Task where
  id : JsValue
  title : String
  priority : SafeInteger
  deadline : Option String
  completed : Bool
  deriving DecidableEq

/-- A child element of a list item, with the properties the script sets on it.  A button
carries the arguments with which its click listener calls `handleDelete`. -/
inductive Child where
  | input (inputType : String) (checked : Bool) (disabled : Bool)
  | span (textContent : String)
  | button (textContent : String) (title : String) (clickId : JsValue) (clickTitle : String)
  deriving DecidableEq

/-- An `li` element of the task list: its classes, its own text and its children. -/
structure Li where
  classList : List String
  textContent : String
  children : List Child
  deriving DecidableEq

/-- A request sent with `fetch`: `GET API_URL/tasks`, `POST API_URL/tasks` with the JSON
body `(title, priority, deadline)`, and `DELETE API_URL/tasks?id=eq.ID`. -/
inductive Request where
  | listTasks
  | createTask (title : String) (priority : JsNumber) (deadline : String)
  | deleteTask (id : JsValue)
  deriving DecidableEq

/-- What an operation does besides changing the page, in the order it does it. -/
inductive Event where
  | showSpinner
  | hideSpinner
  | fetch (req : Request)
  | confirm (prompt : String)
  | render
  | formReset
  deriving DecidableEq

/-- The page: the spinner, the children of the task list, the toast, the `dark` class of
the body, local storage, and the record of the events so far.  The timer with which
`showToast` hides the toast later on is left out. -/
structure Page where
  spinnerHidden : Bool
  taskList : List Li
  toastText : String
  toastHidden : Bool
  bodyDark : Bool
  localStorage : String → Option String
  trace : List Event

/-- The function `showSpinner()`; the call is also noted in the record of events. -/
def showSpinner (s : Page) : Page :=
  { s with spinnerHidden := false, trace := s.trace ++ [Event.showSpinner] }

/-- The function `hideSpinner()`; the call is also noted in the record of events. -/
def hideSpinner (s : Page) : Page :=
  { s with spinnerHidden := true, trace := s.trace ++ [Event.hideSpinner] }

/-- The function `showToast(msg)`. -/
def showToast (msg : String) (s : Page) : Page :=
  { s with toastText := msg, toastHidden := false }

/-- An event added to the record. -/
def record (e : Event) (s : Page) : Page :=
  { s with trace := s.trace ++ [e] }

/-- The call `taskList.appendChild(li)`. -/
def appendChild (li : Li) (s : Page) : Page :=
  { s with taskList := s.taskList ++ [li] }

/-! ## Renderer -/

/-- The conversion of a safe integer to a string in a template literal: its decimal
digits, with a minus sign when negative (what `Number::toString` gives on this range). -/
def numberToString (n : SafeInteger) : String := toString n.val

/-- The expression `task.deadline || "None"` converted to a string. -/
def deadlineOrNone : Option String → String
  | some d => if strToBoolean d then d else "None"
  | none => "None"

/-- The text of the `span` of a task. -/
def spanText (task : Task) : String :=
  task.title ++ " (Priority: " ++ numberToString task.priority ++ ") Deadline: "
    ++ deadlineOrNone task.deadline

/-- The `li` element built in the body of the `forEach` of `renderTaskList`. -/
def taskLi (task : Task) : Li :=
  let classList : List String := if task.completed then ["completed"] else []
  let checkbox := Child.input "checkbox" task.completed true
  let span := Child.span (spanText task)
  let deleteBtn := Child.button "🗑️" "Delete Task" task.id task.title
  { classList := classList, textContent := "", children := [checkbox, span, deleteBtn] }

/-- The function `renderTaskList(tasks)`: it empties the list, then appends the placeholder
or one item per task; the call is also noted in the record of events. -/
def renderTaskList (tasks : List Task) (s : Page) : Page :=
  let s := record Event.render { s with taskList := [] }
  if tasks.length == 0 then
    let li : Li := { classList := [], textContent := "🎉 No tasks yet!", children := [] }
    appendChild li s
  else
    tasks.foldl (fun s task => appendChild (taskLi task) s) s

/-! ## Network outcomes and the three operations -/

/-- The property `res.ok`: the status is in the range 200 to 299. -/
def resOk (status : Nat) : Bool := decide (200 ≤ status) && decide (status ≤ 299)

/-- The outcome of `GET /tasks`: `fetch` rejects with an error of the given message, or a
response arrives with a status and a body, where reading the body with `res.json()` either
fails with a message or gives the tasks. -/
inductive GetOutcome where
  | rejected (msg : String)
  | response (status : Nat) (body : Except String (List Task))

/-- The outcome of `DELETE /tasks?id=eq.ID`: `fetch` rejects, or a response with a status
arrives. -/
inductive DeleteOutcome where
  | rejected (msg : String)
  | response (status : Nat)

/-- The body of the response to a `POST`, as the handler uses it: reading it fails with a
message, or it is an object whose `error` field is a string or is missing. -/
inductive ErrorBody where
  | unreadable (msg : String)
  | object (error : Option String)

/-- The outcome of `POST /tasks`: `fetch` rejects, or a response with a status and a body
arrives. -/
inductive PostOutcome where
  | rejected (msg : String)
  | response (status : Nat) (body : ErrorBody)

/-- The function `fetchTasks()`.  The pair computed for the `try` block holds the page
it leaves and the message of the error it throws, if any. -/
def fetchTasks (get : GetOutcome) (s : Page) : Page :=
  let s := showSpinner s
  let s := record (Event.fetch Request.listTasks) s
  let tried : Page × Option String :=
    match get with
    | .rejected msg => (s, some msg)
    | .response status body =>
      if !resOk status then (s, some ("GET failed (" ++ toString status ++ ")"))
      else
        match body with
        | .error msg => (s, some msg)
        | .ok tasks => (renderTaskList tasks s, none)
  let s :=
    match tried with
    | (s, some msg) => showToast ("Error fetching tasks: " ++ msg) s
    | (s, none) => s
  hideSpinner s

/-- The double quote character. -/
def dquote : String := String.singleton (Char.ofNat 34)

/-- The function `handleDelete(id, title)`; `answer` is what `confirm` returns. -/
def handleDelete (id : JsValue) (title : String) (answer : Bool) (del : DeleteOutcome)
    (get : GetOutcome) (s : Page) : Page :=
  if !id.toBoolean then showToast "Missing task ID" s
  else
    let s := record (Event.confirm ("Delete " ++ dquote ++ title ++ dquote ++ "?")) s
    if !answer then s
    else
      let s := showSpinner s
      let s := record (Event.fetch (Request.deleteTask id)) s
      let tried : Page × Option String :=
        match del with
        | .rejected msg => (s, some msg)
        | .response status =>
          if !resOk status then (s, some ("Delete failed (" ++ toString status ++ ")"))
          else (fetchTasks get (showToast "Task deleted" s), none)
      let s :=
        match tried with
        | (s, some msg) => showToast ("Error deleting: " ++ msg) s
        | (s, none) => s
      hideSpinner s

/-- The expression `Number(priorityInput) || 2`. -/
def priorityOrTwo (host : Host) (priorityInput : String) : JsNumber :=
  if (host.toNumber priorityInput).toBoolean then host.toNumber priorityInput else .fin 2

/-- The expression `err.error || "Unknown error"`. -/
def errorOrUnknown : Option String → String
  | some e => if strToBoolean e then e else "Unknown error"
  | none => "Unknown error"

/-- The part of the submit listener after validation: the request and what follows it. -/
def sendCreate (title : String) (priority : JsNumber) (deadline : String) (post : PostOutcome)
    (get : GetOutcome) (s : Page) : Page :=
  let s := showSpinner s
  let s := record (Event.fetch (Request.createTask title priority deadline)) s
  let tried : Page × Option String :=
    match post with
    | .rejected msg => (s, some msg)
    | .response status body =>
      if !resOk status then
        match body with
        | .unreadable msg => (s, some msg)
        | .object error => (s, some (errorOrUnknown error))
      else
        (fetchTasks get (record Event.formReset (showToast "Task added!" s)), none)
  let s :=
    match tried with
    | (s, some msg) => showToast ("Error adding: " ++ msg) s
    | (s, none) => s
  hideSpinner s

/-- The `submit` listener of the task form; `title`, `priorityInput` and `deadline` are the
values of the three form fields. -/
def taskFormSubmit (host : Host) (title priorityInput deadline : String) (post : PostOutcome)
    (get : GetOutcome) (s : Page) : Page :=
  let priority := priorityOrTwo host priorityInput
  match validateInput host title (.num priority) deadline with
  | some error =>
    if strToBoolean error then showToast error s
    else sendCreate title priority deadline post get s
  | none => sendCreate title priority deadline post get s

/-! ## Theme -/

/-- The call `localStorage.setItem(key, value)`. -/
def setItem (key value : String) (s : Page) : Page :=
  { s with localStorage := fun k => if k = key then some value else s.localStorage k }

/-- The `click` listener of the theme button. -/
def toggleTheme (s : Page) : Page :=
  let s := { s with bodyDark := !s.bodyDark }
  setItem "theme" (if s.bodyDark then "dark" else "light") s

/-- The function `init()`. -/
def init (get : GetOutcome) (s : Page) : Page :=
  let savedTheme := s.localStorage "theme"
  let s := if savedTheme = some "dark" then { s with bodyDark := true } else s
  fetchTasks get s

/-- A page before `init` runs, used to evaluate the script on concrete inputs: nothing in
the list, nothing stored, light mode. -/
def blankPage : Page where
  spinnerHidden := true
  taskList := []
  toastText := ""
  toastHidden := true
  bodyDark := false
  localStorage := fun _ => none
  trace := []

/-- The events an operation added when it took the page from `s` to `t`. -/
def eventsSince (s t : Page) : List Event := t.trace.drop s.trace.length

/-- The events of one run of `fetchTasks`. -/
def fetchEvents : GetOutcome → List Event
  | .response status (.ok _) =>
    if resOk status then
      [Event.showSpinner, Event.fetch Request.listTasks, Event.render, Event.hideSpinner]
    else [Event.showSpinner, Event.fetch Request.listTasks, Event.hideSpinner]
  | _ => [Event.showSpinner, Event.fetch Request.listTasks, Event.hideSpinner]

/-- The events of the submit listener once validation has passed. -/
def createEvents (title : String) (priority : JsNumber) (deadline : String)
    (post : PostOutcome) (get : GetOutcome) : List Event :=
  match post with
  | .response status _ =>
    if resOk status then
      [Event.showSpinner, Event.fetch (Request.createTask title priority deadline),
        Event.formReset] ++ fetchEvents get ++ [Event.hideSpinner]
    else
      [Event.showSpinner, Event.fetch (Request.createTask title priority deadline),
        Event.hideSpinner]
  | .rejected _ =>
    [Event.showSpinner, Event.fetch (Request.createTask title priority deadline),
      Event.hideSpinner]

/-- The number of delete buttons in the displayed list. -/
def deleteButtons (lis : List Li) : Nat :=
  (lis.map fun li => (li.children.filter fun c =>
    match c with
    | .button _ _ _ _ => true
    | _ => false).length).sum

/-- The task of the fourth scenario. -/
def taskA : Task :=
  { id := .num (.fin 1), title := "A", priority := ⟨1, by decide⟩, deadline := none,
    completed := false }

/-! ## Lemmas on trimming -/

theorem trim_data_eq_nil_iff (s : String) : (trim s).data = [] ↔ isBlank s := by
  unfold trim isBlank
  simp only [List.reverse_eq_nil_iff, List.dropWhile_eq_nil_iff, List.mem_reverse]
  constructor
  · intro h
    by_contra hne
    have hd : s.data.dropWhile isJsWhiteSpace ≠ [] := by
      intro h0
      exact hne (List.dropWhile_eq_nil_iff.mp h0)
    have h1 := List.head_dropWhile_not isJsWhiteSpace s.data hd
    have h2 := h _ (List.head_mem hd)
    simp [h2] at h1
  · intro h c hc
    exact h c ((List.dropWhile_suffix _).subset hc)

theorem strToBoolean_trim_of_blank {s : String} (h : isBlank s) :
    strToBoolean (trim s) = false := by
  simp [strToBoolean, (trim_data_eq_nil_iff s).mpr h]

theorem strToBoolean_trim_of_not_blank {s : String} (h : ¬ isBlank s) :
    strToBoolean (trim s) = true := by
  simp [strToBoolean, trim_data_eq_nil_iff, h]

theorem strToBoolean_eq_false_iff (s : String) : strToBoolean s = false ↔ s = "" := by
  cases s with
  | mk l => cases l <;> simp [strToBoolean, String.ext_iff]

/-- An integral number that is neither below 1 nor above 3 is 1, 2 or 3. -/
theorem rat_one_two_three {q : ℚ} (h : q.den = 1) (h1 : ¬ q < 1) (h3 : ¬ 3 < q) :
    q = 1 ∨ q = 2 ∨ q = 3 := by
  have hq : (q.num : ℚ) = q := (Rat.den_eq_one_iff q).mp h
  rw [← hq] at h1 h3 ⊢
  have a1 : (1 : ℤ) ≤ q.num := by exact_mod_cast not_lt.mp h1
  have a3 : q.num ≤ 3 := by exact_mod_cast not_lt.mp h3
  have : q.num = 1 ∨ q.num = 2 ∨ q.num = 3 := by omega
  rcases this with h | h | h <;> simp [h]

/-- The priority test of `validateInput` fails exactly on the valid priorities. -/
theorem priority_test_eq_false_iff (host : Host) (p : JsValue) :
    (!numberIsInteger p || (p.toNumber host).lt (.fin 1)
      || JsNumber.lt (.fin 3) (p.toNumber host)) = false ↔ isValidPriority p := by
  constructor
  · intro h
    simp only [Bool.or_eq_false_iff, Bool.not_eq_false_eq_eq_true] at h
    obtain ⟨⟨hi, h1⟩, h3⟩ := h
    cases p with
    | num n =>
      cases n with
      | fin q =>
        simp only [numberIsInteger, decide_eq_true_eq] at hi
        simp only [JsValue.toNumber, JsNumber.lt, decide_eq_false_iff_not] at h1 h3
        rcases rat_one_two_three hi h1 h3 with h | h | h <;> simp [isValidPriority, h]
      | _ => simp [numberIsInteger] at hi
    | _ => simp [numberIsInteger] at hi
  · intro h
    rcases h with h | h | h <;> subst h <;>
      (simp [numberIsInteger, JsValue.toNumber, JsNumber.lt]; all_goals norm_num)

/-! ## Theorems on the validator -/

/-- C1: a title that is empty or made of white space only gets the title error,
whatever the priority and the deadline are. -/
theorem validateInput_blank_title (host : Host) (title : String) (priority : JsValue)
    (deadline : String) (h : isBlank title) :
    validateInput host title priority deadline = some "Title is required." := by
  simp [validateInput, strToBoolean_trim_of_blank h]

theorem validateInput_blank_title_witness :
    isBlank " \t\n" ∧ validateInput sampleHost " \t\n" (.num (.fin 5)) "tomorrow"
      = some "Title is required." ∧
    validateInput sampleHost "" (.num (.fin 2)) "" = some "Title is required." :=
  ⟨by decide, validateInput_blank_title sampleHost " \t\n" (.num (.fin 5)) "tomorrow" (by decide),
    validateInput_blank_title sampleHost "" (.num (.fin 2)) "" (by decide)⟩

/-- C2: with a title that is not blank, every priority value other than the numbers
1, 2, 3 (a value that is not a number, a number that is not an integer, an integer
below 1 or above 3) gets the priority error, whatever the deadline is. -/
theorem validateInput_bad_priority (host : Host) (title : String) (priority : JsValue)
    (deadline : String) (ht : ¬ isBlank title) (hp : ¬ isValidPriority priority) :
    validateInput host title priority deadline = some "Priority must be 1-3." := by
  have hp2 := (priority_test_eq_false_iff host priority).not.mpr hp
  rw [Bool.not_eq_false] at hp2
  simp only [validateInput, strToBoolean_trim_of_not_blank ht]
  rw [if_pos hp2]
  simp

theorem validateInput_bad_priority_witness :
    ¬ isBlank "Buy milk" ∧ ¬ isValidPriority (.num (.fin 5)) ∧
    validateInput sampleHost "Buy milk" (.num (.fin 5)) "" = some "Priority must be 1-3." :=
  ⟨by decide, by decide,
    validateInput_bad_priority sampleHost "Buy milk" (.num (.fin 5)) "" (by decide) (by decide)⟩

/-- C3: with a title that is not blank and a priority among 1, 2, 3, the result is the
deadline error exactly when the deadline is not empty and does not parse as a date, and
it is no error (null) in every other case; an empty deadline gives no error. -/
theorem validateInput_deadline (host : Host) (title : String) (priority : JsValue)
    (deadline : String) (ht : ¬ isBlank title) (hp : isValidPriority priority) :
    (validateInput host title priority deadline = some "Deadline is invalid."
      ↔ (deadline ≠ "" ∧ ¬ parsesAsDate host deadline)) ∧
    (¬ (deadline ≠ "" ∧ ¬ parsesAsDate host deadline)
      → validateInput host title priority deadline = none) ∧
    validateInput host title priority "" = none := by
  have hp2 := (priority_test_eq_false_iff host priority).mpr hp
  have hv : ∀ d : String, validateInput host title priority d =
      if strToBoolean d && (host.dateParse d).isNaN then some "Deadline is invalid."
      else none := by
    intro d
    simp only [validateInput, strToBoolean_trim_of_not_blank ht]
    rw [if_neg (by simp), if_neg (by rw [hp2]; simp)]
  have hc : ∀ d : String, (strToBoolean d && (host.dateParse d).isNaN) = true
      ↔ (d ≠ "" ∧ ¬ parsesAsDate host d) := by
    intro d
    rw [Bool.and_eq_true, parsesAsDate, Bool.not_eq_false, ← Bool.not_eq_false (b := strToBoolean d),
      strToBoolean_eq_false_iff]
  refine ⟨?_, ?_, ?_⟩
  · rw [hv, ← hc]
    by_cases hb : (strToBoolean deadline && (host.dateParse deadline).isNaN) = true <;> simp [hb]
  · intro hn
    rw [hv, if_neg (by rw [hc]; exact hn)]
  · rw [hv, if_neg (by rw [hc]; simp)]

theorem validateInput_deadline_witness :
    ¬ isBlank "Buy milk" ∧ isValidPriority (.num (.fin 2)) ∧
    validateInput sampleHost "Buy milk" (.num (.fin 2)) "" = none :=
  ⟨by decide, by decide,
    (validateInput_deadline sampleHost "Buy milk" (.num (.fin 2)) "" (by decide) (by decide)).2.2⟩

/-! ## Lemmas on the renderer and on `fetchTasks` -/

theorem foldl_appendChild (tasks : List Task) (s : Page) :
    tasks.foldl (fun s task => appendChild (taskLi task) s) s
      = { s with taskList := s.taskList ++ tasks.map taskLi } := by
  induction tasks generalizing s with
  | nil => simp
  | cons t ts ih => rw [List.foldl_cons, ih]; simp [appendChild]

theorem renderTaskList_of_ne_nil {tasks : List Task} (h : tasks ≠ []) (s : Page) :
    renderTaskList tasks s
      = { s with taskList := tasks.map taskLi, trace := s.trace ++ [Event.render] } := by
  have hl : (tasks.length == 0) = false := by
    cases tasks with
    | nil => exact absurd rfl h
    | cons t ts => rfl
  simp only [renderTaskList, hl, foldl_appendChild]
  simp [record]

theorem renderTaskList_nil (s : Page) :
    renderTaskList [] s
      = { s with taskList := [⟨[], "🎉 No tasks yet!", []⟩], trace := s.trace ++ [Event.render] } := by
  simp [renderTaskList, record, appendChild]

theorem renderTaskList_trace (tasks : List Task) (s : Page) :
    (renderTaskList tasks s).trace = s.trace ++ [Event.render] := by
  cases tasks with
  | nil => rw [renderTaskList_nil]
  | cons t ts => rw [renderTaskList_of_ne_nil (List.cons_ne_nil t ts)]

theorem fetchTasks_spinnerHidden (get : GetOutcome) (s : Page) :
    (fetchTasks get s).spinnerHidden = true := by
  simp [fetchTasks, hideSpinner]

theorem fetchTasks_trace (get : GetOutcome) (s : Page) :
    (fetchTasks get s).trace = s.trace ++ fetchEvents get := by
  rcases get with msg | ⟨status, msg | tasks⟩
  · simp [fetchTasks, fetchEvents, hideSpinner, showToast, record, showSpinner]
  · by_cases h : resOk status = true <;>
      simp [fetchTasks, fetchEvents, hideSpinner, showToast, record, showSpinner, h]
  · by_cases h : resOk status = true <;>
      simp [fetchTasks, fetchEvents, hideSpinner, showToast, record, showSpinner, h,
        renderTaskList_trace]

theorem fetchTasks_bodyDark (get : GetOutcome) (s : Page) :
    (fetchTasks get s).bodyDark = s.bodyDark := by
  rcases get with msg | ⟨status, msg | tasks⟩
  · simp [fetchTasks, hideSpinner, showToast, record, showSpinner]
  · by_cases h : resOk status = true <;>
      simp [fetchTasks, hideSpinner, showToast, record, showSpinner, h]
  · by_cases h : resOk status = true
    · cases tasks with
      | nil => simp [fetchTasks, hideSpinner, h, renderTaskList_nil, record, showSpinner]
      | cons t ts =>
        simp [fetchTasks, hideSpinner, h, renderTaskList_of_ne_nil, record, showSpinner]
    · simp [fetchTasks, hideSpinner, showToast, record, showSpinner, h]

theorem eventsSince_of_trace {s t : Page} {evs : List Event} (h : t.trace = s.trace ++ evs) :
    eventsSince s t = evs := by
  simp [eventsSince, h]

/-! ## Theorems on the renderer -/

/-- C4: for a non-empty sequence of tasks the displayed list has one entry per task, in
the order of the sequence; the entry of the i-th task has a disabled checkbox that is
checked exactly when the task is completed, the label
`title (Priority: priority) Deadline: deadline` in which the priority, a safe integer, is
written in decimal digits and `None` stands for a deadline that
is absent (null, or the empty string, which the script treats alike), and one delete
button bound to the id and title of the task.  For the single task of the fourth scenario
the entry is labelled `A (Priority: 1) Deadline: None`, unchecked, with delete bound to
id 1. -/
theorem renderTaskList_entries (tasks : List Task) (s : Page) (h : tasks ≠ []) :
    (renderTaskList tasks s).taskList.length = tasks.length ∧
    (∀ (i : Nat) (hi : i < tasks.length),
      ∃ li, (renderTaskList tasks s).taskList[i]? = some li ∧
        li.children =
          [Child.input "checkbox" tasks[i].completed true,
           Child.span (tasks[i].title ++ " (Priority: " ++ toString tasks[i].priority.val
             ++ ") Deadline: " ++
             (if tasks[i].deadline = none ∨ tasks[i].deadline = some "" then "None"
              else tasks[i].deadline.getD "")),
           Child.button "🗑️" "Delete Task" tasks[i].id tasks[i].title] ∧
        deleteButtons [li] = 1) ∧
    deleteButtons (renderTaskList tasks s).taskList = tasks.length ∧
    (renderTaskList [taskA] s).taskList =
      [⟨[], "", [Child.input "checkbox" false true,
                 Child.span "A (Priority: 1) Deadline: None",
                 Child.button "🗑️" "Delete Task" (.num (.fin 1)) "A"]⟩] := by
  have hdl : ∀ d : Option String,
      deadlineOrNone d = if d = none ∨ d = some "" then "None" else d.getD "" := by
    intro d
    cases d with
    | none => simp [deadlineOrNone]
    | some x =>
      by_cases hx : x = ""
      · subst hx; simp [deadlineOrNone, strToBoolean]
      · have : strToBoolean x = true := by
          rw [← Bool.not_eq_false, strToBoolean_eq_false_iff]; exact hx
        simp [deadlineOrNone, this, hx]
  have hdb : ∀ l : List Task, deleteButtons (l.map taskLi) = l.length := by
    intro l
    induction l with
    | nil => rfl
    | cons t ts ih =>
      simp only [deleteButtons, List.map_cons, List.sum_cons, List.length_cons] at ih ⊢
      rw [ih]
      simp [taskLi, List.filter]
      omega
  refine ⟨?_, ?_, ?_, ?_⟩
  · rw [renderTaskList_of_ne_nil h]; simp
  · intro i hi
    refine ⟨taskLi tasks[i], ?_, ?_, ?_⟩
    · rw [renderTaskList_of_ne_nil h]
      simp [List.getElem?_map, List.getElem?_eq_getElem hi]
    · simp [taskLi, spanText, numberToString, hdl]
    · simp [deleteButtons, taskLi, List.filter]
  · rw [renderTaskList_of_ne_nil h]
    exact hdb tasks
  · rw [renderTaskList_of_ne_nil (by decide)]
    show [taskA].map taskLi = _
    decide

theorem renderTaskList_entries_witness :
    (renderTaskList [taskA] blankPage).taskList =
      [⟨[], "", [Child.input "checkbox" false true,
                 Child.span "A (Priority: 1) Deadline: None",
                 Child.button "🗑️" "Delete Task" (.num (.fin 1)) "A"]⟩] :=
  (renderTaskList_entries [taskA] blankPage (by decide)).2.2.2

/-- C5: whatever the displayed list held before, rendering the empty sequence leaves
exactly one entry, the `No tasks yet!` placeholder, and no delete button. -/
theorem renderTaskList_empty (s : Page) :
    (renderTaskList [] s).taskList = [⟨[], "🎉 No tasks yet!", []⟩] ∧
    (renderTaskList [] s).taskList.length = 1 ∧
    deleteButtons (renderTaskList [] s).taskList = 0 := by
  rw [renderTaskList_nil]
  exact ⟨rfl, rfl, rfl⟩

/-! ## Lemmas on the operations -/

theorem sendCreate_spinnerHidden (title : String) (priority : JsNumber) (deadline : String)
    (post : PostOutcome) (get : GetOutcome) (s : Page) :
    (sendCreate title priority deadline post get s).spinnerHidden = true := by
  simp [sendCreate, hideSpinner]

theorem sendCreate_trace (title : String) (priority : JsNumber) (deadline : String)
    (post : PostOutcome) (get : GetOutcome) (s : Page) :
    (sendCreate title priority deadline post get s).trace
      = s.trace ++ createEvents title priority deadline post get := by
  rcases post with msg | ⟨status, msg | error⟩
  · simp [sendCreate, createEvents, hideSpinner, showToast, record, showSpinner]
  · by_cases h : resOk status = true <;>
      simp [sendCreate, createEvents, hideSpinner, showToast, record, showSpinner, h,
        fetchTasks_trace]
  · by_cases h : resOk status = true <;>
      simp [sendCreate, createEvents, hideSpinner, showToast, record, showSpinner, h,
        fetchTasks_trace]

theorem mem_fetchEvents {e : Event} {get : GetOutcome} (h : e ∈ fetchEvents get) :
    e = Event.showSpinner ∨ e = Event.fetch Request.listTasks ∨ e = Event.render
      ∨ e = Event.hideSpinner := by
  rcases get with msg | ⟨status, msg | tasks⟩
  · simp [fetchEvents] at h; tauto
  · simp [fetchEvents] at h; tauto
  · by_cases hs : resOk status = true <;> simp [fetchEvents, hs] at h <;> tauto

theorem create_mem_createEvents {title deadline t d : String} {priority p : JsNumber}
    {post : PostOutcome} {get : GetOutcome}
    (h : Event.fetch (Request.createTask t p d)
      ∈ createEvents title priority deadline post get) :
    t = title ∧ p = priority ∧ d = deadline := by
  have hf : Event.fetch (Request.createTask t p d) ∉ fetchEvents get := by
    intro hm
    rcases mem_fetchEvents hm with h1 | h1 | h1 | h1 <;> simp at h1
  rcases post with msg | ⟨status, body⟩
  · simpa [createEvents] using h
  · by_cases hs : resOk status = true
    · simpa [createEvents, hs, hf] using h
    · simpa [createEvents, hs] using h

theorem validateInput_truthy {host : Host} {title deadline error : String} {p : JsValue}
    (h : validateInput host title p deadline = some error) : strToBoolean error = true := by
  unfold validateInput at h
  split_ifs at h <;> simp at h <;> subst h <;> decide

theorem validateInput_eq_none {host : Host} {title deadline : String} {p : JsValue}
    (h : validateInput host title p deadline = none) :
    ¬ isBlank title ∧ isValidPriority p ∧ (deadline = "" ∨ parsesAsDate host deadline) := by
  unfold validateInput at h
  split_ifs at h with h1 h2 h3
  refine ⟨?_, ?_, ?_⟩
  · intro hb
    rw [strToBoolean_trim_of_blank hb] at h1
    exact h1 rfl
  · rw [Bool.not_eq_true] at h2
    exact (priority_test_eq_false_iff host p).mp h2
  · rw [Bool.and_eq_true, not_and_or] at h3
    rcases h3 with h3 | h3
    · left
      rw [Bool.not_eq_true] at h3
      exact (strToBoolean_eq_false_iff deadline).mp h3
    · right
      rw [Bool.not_eq_true] at h3
      exact h3

theorem taskFormSubmit_of_error {host : Host} {title priorityInput deadline error : String}
    (h : validateInput host title (.num (priorityOrTwo host priorityInput)) deadline
      = some error)
    (post : PostOutcome) (get : GetOutcome) (s : Page) :
    taskFormSubmit host title priorityInput deadline post get s = showToast error s := by
  simp [taskFormSubmit, h, validateInput_truthy h]

theorem taskFormSubmit_of_none {host : Host} {title priorityInput deadline : String}
    (h : validateInput host title (.num (priorityOrTwo host priorityInput)) deadline = none)
    (post : PostOutcome) (get : GetOutcome) (s : Page) :
    taskFormSubmit host title priorityInput deadline post get s
      = sendCreate title (priorityOrTwo host priorityInput) deadline post get s := by
  simp [taskFormSubmit, h]

theorem eventsSince_showToast (msg : String) (s : Page) :
    eventsSince s (showToast msg s) = [] := by
  simp [eventsSince, showToast]

/-! ## Theorems on the operations -/

/-- C6: for every title, `handleDelete` called with the id `undefined` sends no request
and asks for no confirmation (it adds no event at all), sets the notification to
`Missing task ID`, and leaves the displayed list and the spinner as they were. -/
theorem handleDelete_missing_id (title : String) (answer : Bool) (del : DeleteOutcome)
    (get : GetOutcome) (s : Page) :
    eventsSince s (handleDelete .undefined title answer del get s) = [] ∧
    (handleDelete .undefined title answer del get s).toastText = "Missing task ID" ∧
    (handleDelete .undefined title answer del get s).toastHidden = false ∧
    (handleDelete .undefined title answer del get s).taskList = s.taskList ∧
    (handleDelete .undefined title answer del get s).spinnerHidden = s.spinnerHidden := by
  have h : handleDelete .undefined title answer del get s = showToast "Missing task ID" s := by
    simp [handleDelete, JsValue.toBoolean]
  rw [h, eventsSince_showToast]
  exact ⟨rfl, rfl, rfl, rfl, rfl⟩

/-- C7: `fetchTasks` always shows the spinner and ends with it hidden; the submit listener
and `handleDelete`, whenever they have shown the spinner, end with it hidden.  This holds
for every outcome of every network call involved (rejected fetch, any status, unreadable
body), the nested list refresh included. -/
theorem spinner_hidden_at_end (host : Host) (title priorityInput deadline : String)
    (id : JsValue) (taskTitle : String) (answer : Bool) (post : PostOutcome)
    (del : DeleteOutcome) (get : GetOutcome) (s : Page) :
    (Event.showSpinner ∈ eventsSince s (fetchTasks get s) ∧
      (fetchTasks get s).spinnerHidden = true) ∧
    (Event.showSpinner ∈ eventsSince s (taskFormSubmit host title priorityInput deadline post get s)
      → (taskFormSubmit host title priorityInput deadline post get s).spinnerHidden = true) ∧
    (Event.showSpinner ∈ eventsSince s (handleDelete id taskTitle answer del get s)
      → (handleDelete id taskTitle answer del get s).spinnerHidden = true) := by
  refine ⟨⟨?_, fetchTasks_spinnerHidden get s⟩, ?_, ?_⟩
  · rw [eventsSince_of_trace (fetchTasks_trace get s)]
    rcases get with msg | ⟨status, msg | tasks⟩
    · simp [fetchEvents]
    · simp [fetchEvents]
    · by_cases hs : resOk status = true <;> simp [fetchEvents, hs]
  · intro hshown
    cases hv : validateInput host title (.num (priorityOrTwo host priorityInput)) deadline with
    | some error =>
      rw [taskFormSubmit_of_error hv, eventsSince_showToast] at hshown
      simp at hshown
    | none =>
      rw [taskFormSubmit_of_none hv]
      exact sendCreate_spinnerHidden _ _ _ _ _ _
  · intro hshown
    by_cases hid : id.toBoolean = true
    · cases answer with
      | false =>
        simp [handleDelete, hid, eventsSince, record] at hshown
      | true =>
        simp [handleDelete, hid, hideSpinner]
    · simp [handleDelete, hid, eventsSince, showToast] at hshown

theorem spinner_hidden_at_end_witness :
    Event.showSpinner ∈ eventsSince blankPage
      (handleDelete (.num (.fin 1)) "A" true (.response 204) (.response 500 (.ok [])) blankPage) ∧
    (handleDelete (.num (.fin 1)) "A" true (.response 204) (.response 500 (.ok []))
      blankPage).spinnerHidden = true ∧
    Event.showSpinner ∈ eventsSince blankPage
      (taskFormSubmit sampleHost "Buy milk" "2" "" (.response 400 (.unreadable "bad body"))
        (.rejected "Failed to fetch") blankPage) ∧
    (taskFormSubmit sampleHost "Buy milk" "2" "" (.response 400 (.unreadable "bad body"))
      (.rejected "Failed to fetch") blankPage).spinnerHidden = true :=
  ⟨by decide,
    (spinner_hidden_at_end sampleHost "Buy milk" "2" "" (.num (.fin 1)) "A" true
      (.response 400 (.unreadable "bad body")) (.response 204) (.response 500 (.ok []))
      blankPage).2.2 (by decide),
    by decide,
    (spinner_hidden_at_end sampleHost "Buy milk" "2" "" (.num (.fin 1)) "A" true
      (.response 400 (.unreadable "bad body")) (.response 204) (.rejected "Failed to fetch")
      blankPage).2.1 (by decide)⟩

/-- C8: when the list fetch fails, by a rejected fetch with some message or by a response
whose status is outside 200..299, `fetchTasks` does not call the renderer, leaves the
displayed list as it was, and sets the notification to `Error fetching tasks: ` followed
by the message of the failure, which is `GET failed (status)` for a failing status. -/
theorem fetchTasks_failure (s : Page) (msg : String) (status : Nat)
    (body : Except String (List Task)) (h : ¬ (200 ≤ status ∧ status ≤ 299)) :
    (Event.render ∉ eventsSince s (fetchTasks (.rejected msg) s) ∧
      (fetchTasks (.rejected msg) s).taskList = s.taskList ∧
      (fetchTasks (.rejected msg) s).toastText = "Error fetching tasks: " ++ msg) ∧
    (Event.render ∉ eventsSince s (fetchTasks (.response status body) s) ∧
      (fetchTasks (.response status body) s).taskList = s.taskList ∧
      (fetchTasks (.response status body) s).toastText
        = "Error fetching tasks: " ++ ("GET failed (" ++ toString status ++ ")")) := by
  have hok : resOk status = false := by
    simp only [resOk, Bool.and_eq_false_iff, decide_eq_false_iff_not]
    exact not_and_or.mp h
  refine ⟨⟨?_, ?_, ?_⟩, ?_, ?_, ?_⟩
  · rw [eventsSince_of_trace (fetchTasks_trace _ s)]; simp [fetchEvents]
  · simp [fetchTasks, hideSpinner, showToast, record, showSpinner]
  · simp [fetchTasks, hideSpinner, showToast, record, showSpinner]
  · rw [eventsSince_of_trace (fetchTasks_trace _ s)]
    cases body <;> simp [fetchEvents, hok]
  · simp [fetchTasks, hideSpinner, showToast, record, showSpinner, hok]
  · simp [fetchTasks, hideSpinner, showToast, record, showSpinner, hok]

theorem fetchTasks_failure_witness :
    (fetchTasks (.response 500 (.ok [taskA])) blankPage).taskList = [] ∧
    (fetchTasks (.response 500 (.ok [taskA])) blankPage).toastText
      = "Error fetching tasks: GET failed (500)" :=
  ⟨(fetchTasks_failure blankPage "Failed to fetch" 500 (.ok [taskA]) (by decide)).2.2.1,
    (fetchTasks_failure blankPage "Failed to fetch" 500 (.ok [taskA]) (by decide)).2.2.2⟩

/-- C9: when `validateInput` returns an error for the submitted input, the submit listener
sends no request (it adds no event), sets the notification to exactly that message, and
leaves the displayed list and the spinner as they were; hence every create request that
is sent carries a title that is not blank, a priority among 1, 2, 3, and a deadline that
is empty or parses as a date. -/
theorem taskFormSubmit_validation (host : Host) (title priorityInput deadline : String)
    (post : PostOutcome) (get : GetOutcome) (s : Page) :
    (∀ error : String,
      validateInput host title (.num (priorityOrTwo host priorityInput)) deadline = some error →
        eventsSince s (taskFormSubmit host title priorityInput deadline post get s) = [] ∧
        (taskFormSubmit host title priorityInput deadline post get s).toastText = error ∧
        (taskFormSubmit host title priorityInput deadline post get s).taskList = s.taskList ∧
        (taskFormSubmit host title priorityInput deadline post get s).spinnerHidden
          = s.spinnerHidden) ∧
    (∀ (t : String) (p : JsNumber) (d : String),
      Event.fetch (Request.createTask t p d)
          ∈ eventsSince s (taskFormSubmit host title priorityInput deadline post get s) →
        ¬ isBlank t ∧ isValidPriority (.num p) ∧ (d = "" ∨ parsesAsDate host d)) := by
  constructor
  · intro error hv
    rw [taskFormSubmit_of_error hv, eventsSince_showToast]
    exact ⟨rfl, rfl, rfl, rfl⟩
  · intro t p d hmem
    cases hv : validateInput host title (.num (priorityOrTwo host priorityInput)) deadline with
    | some error =>
      rw [taskFormSubmit_of_error hv, eventsSince_showToast] at hmem
      simp at hmem
    | none =>
      rw [taskFormSubmit_of_none hv, eventsSince_of_trace (sendCreate_trace _ _ _ _ _ _)] at hmem
      obtain ⟨ht, hp, hd⟩ := create_mem_createEvents hmem
      subst ht hp hd
      exact validateInput_eq_none hv

theorem taskFormSubmit_validation_witness :
    validateInput sampleHost "Buy milk" (.num (priorityOrTwo sampleHost "5")) "" =
      some "Priority must be 1-3." ∧
    eventsSince blankPage (taskFormSubmit sampleHost "Buy milk" "5" ""
      (.response 201 (.object none)) (.response 200 (.ok [taskA])) blankPage) = [] ∧
    (taskFormSubmit sampleHost "Buy milk" "5" ""
      (.response 201 (.object none)) (.response 200 (.ok [taskA])) blankPage).toastText
        = "Priority must be 1-3." ∧
    Event.fetch (Request.createTask "Buy milk" (.fin 2) "")
      ∈ eventsSince blankPage (taskFormSubmit sampleHost "Buy milk" "x" ""
        (.response 201 (.object none)) (.response 200 (.ok [taskA])) blankPage) ∧
    isValidPriority (.num (.fin 2)) :=
  ⟨by decide,
    ((taskFormSubmit_validation sampleHost "Buy milk" "5" "" (.response 201 (.object none))
      (.response 200 (.ok [taskA])) blankPage).1 "Priority must be 1-3." (by decide)).1,
    ((taskFormSubmit_validation sampleHost "Buy milk" "5" "" (.response 201 (.object none))
      (.response 200 (.ok [taskA])) blankPage).1 "Priority must be 1-3." (by decide)).2.1,
    by decide,
    ((taskFormSubmit_validation sampleHost "Buy milk" "x" "" (.response 201 (.object none))
      (.response 200 (.ok [taskA])) blankPage).2 "Buy milk" (.fin 2) "" (by decide)).2.1⟩

/-! ## Theorems on the theme -/

/-- C10: a toggle flips the display mode and stores the resulting mode under the key
`theme`, `dark` when the mode is now dark and `light` otherwise, leaving other keys alone;
from a light page with nothing stored, `init` leaves the mode light, the first toggle
stores `dark` and the second stores `light`. -/
theorem toggleTheme_persists (get : GetOutcome) (s : Page)
    (hs : s.localStorage "theme" = none) (hl : s.bodyDark = false) :
    (∀ t : Page, (toggleTheme t).bodyDark = (!t.bodyDark) ∧
      (toggleTheme t).localStorage "theme"
        = some (if (toggleTheme t).bodyDark then "dark" else "light") ∧
      ∀ k : String, k ≠ "theme" → (toggleTheme t).localStorage k = t.localStorage k) ∧
    (init get s).bodyDark = false ∧
    (toggleTheme (init get s)).bodyDark = true ∧
    (toggleTheme (init get s)).localStorage "theme" = some "dark" ∧
    (toggleTheme (toggleTheme (init get s))).bodyDark = false ∧
    (toggleTheme (toggleTheme (init get s))).localStorage "theme" = some "light" := by
  have hi : (init get s).bodyDark = false := by
    simp [init, hs, fetchTasks_bodyDark, hl]
  refine ⟨?_, hi, ?_, ?_, ?_, ?_⟩
  · intro t
    refine ⟨rfl, ?_, ?_⟩
    · simp [toggleTheme, setItem]
    · intro k hk
      simp [toggleTheme, setItem, hk]
  · simp [toggleTheme, setItem, hi]
  · simp [toggleTheme, setItem, hi]
  · simp [toggleTheme, setItem, hi]
  · simp [toggleTheme, setItem, hi]

theorem toggleTheme_persists_witness :
    (toggleTheme (init (.response 200 (.ok [taskA])) blankPage)).localStorage "theme"
      = some "dark" ∧
    (toggleTheme (toggleTheme (init (.response 200 (.ok [taskA])) blankPage))).localStorage
      "theme" = some "light" :=
  ⟨(toggleTheme_persists (.response 200 (.ok [taskA])) blankPage rfl rfl).2.2.2.1,
    (toggleTheme_persists (.response 200 (.ok [taskA])) blankPage rfl rfl).2.2.2.2.2⟩

end TodoApp
